import Mathlib

/-!
Shallow embedding of the SMAP L4 data pipeline
(`01_check_and_move_smap.py`, `02_aggregate_smap_he5.py`,
`03_merge_yearly_daily.py`).

Floating-point values are modelled as exact rationals (ℚ); the NaN marker
produced by masking sentinel readings is modelled as `none : Option ℚ`.
Raised Python exceptions are modelled as the `.error` branch of `Except`;
a written output file corresponds to a returned `.ok` value carrying the
container, so "raises and writes no file" is exactly "returns `.error`".
-/

namespace SMAPL4

/-- Numeric value of a list of ASCII digit characters, most significant
first; models Python `int(s)` on the digit strings produced by the
filename patterns (which guarantee pure digit substrings). -/
def natOfDigits (cs : List Char) : ℕ :=
  cs.foldl (fun a c => 10 * a + (c.toNat - 48)) 0

/-- Take exactly `n` decimal digits from the front of `cs`; models a
`\d{n}` group in a regular expression anchored at the current position. -/
def takeDigits (n : ℕ) (cs : List Char) : Option (List Char × List Char) :=
  let d := cs.take n
  if d.length = n ∧ d.all Char.isDigit then some (d, cs.drop n) else none

/-- Attempt to match `(\d{8})T(\d{6})` at the head of `cs`
(the `TIME_RE` regex of `02_aggregate_smap_he5.py`, case-sensitive). -/
def timeMatchAt (cs : List Char) : Option (String × String) :=
  match takeDigits 8 cs with
  | none => none
  | some (d, r1) =>
    match r1 with
    | [] => none
    | t :: r2 =>
      if t = 'T' then
        match takeDigits 6 r2 with
        | none => none
        | some (u, _) => some (String.mk d, String.mk u)
      else none

/-- Leftmost search for `(\d{8})T(\d{6})`, models `TIME_RE.search`. -/
def timeSearch : List Char → Option (String × String)
  | [] => none
  | c :: rest =>
    match timeMatchAt (c :: rest) with
    | some m => some m
    | none => timeSearch rest

/-- The 8 canonical UTC time-codes of one SMAP day (`UTC_CODES`). -/
def UTC_CODES : List String :=
  ["013000", "043000", "073000", "103000",
   "133000", "163000", "193000", "223000"]

/-- One input granule as the aggregation script sees it: its file name and
its full (uncropped) 2-D `sm_rootzone` field. -/
structure Granule where
  name : String
  grid : List (List ℚ)
deriving DecidableEq, Repr

/-- Errors raised by `aggregate_one_year`.  The Python code raises
`ValueError(f"无法解析时间: {name}")` from `parse_dt`,
`RuntimeError("裁剪范围为空")` for an empty crop window, and
`RuntimeError(f"[{folder}] {day} 缺 {','.join(miss)}")` for a day with
missing time-codes; the message is a fixed rendering of the payload kept
here, so the structured error carries the same information. -/
inductive AggError where
  | badFilename (name : String)
  | emptyCrop
  | missingCodes (folder : String) (day : ℕ) (miss : List String)
deriving DecidableEq, Repr

/-- `parse_dt` applied to every file, in file order: the day key (as the
integer value of its 8-digit string) and the UTC code of each file.  The
Python loop raises at the first file whose name the regex cannot parse. -/
def parseFiles : List Granule → Except AggError (List (ℕ × String × Granule))
  | [] => .ok []
  | g :: gs =>
    match timeSearch g.name.toList with
    | none => .error (.badFilename g.name)
    | some (d, u) =>
      match parseFiles gs with
      | .error e => .error e
      | .ok rest => .ok ((natOfDigits d.toList, u, g) :: rest)

/-- `np.where((vec >= lo) & (vec <= hi))[0]`: the ascending list of
indices whose coordinate lies in the inclusive interval. -/
def cropIdx (vec : List ℚ) (lo hi : ℚ) : List ℕ :=
  (List.range vec.length).filter
    (fun i => decide (lo ≤ vec.getD i 0) && decide (vec.getD i 0 ≤ hi))

/-- Fancy-index a 1-D array by an index list (`vec[idx]`). -/
def selectIdx (vec : List ℚ) (idx : List ℕ) : List ℚ :=
  idx.map (fun i => vec.getD i 0)

/-- `sm[sm < -9000] = np.nan`: readings strictly below the sentinel
threshold become the invalid marker. -/
def maskSentinel (g : List (List ℚ)) : List (List (Option ℚ)) :=
  g.map (fun row => row.map (fun v => if v < -9000 then none else some v))

/-- `sm[lat_idx[:, None], lon_idx]`: crop a 2-D array to the index lists. -/
def cropGrid (g : List (List (Option ℚ))) (latIdx lonIdx : List ℕ) :
    List (List (Option ℚ)) :=
  latIdx.map (fun i => lonIdx.map (fun j => (g.getD i []).getD j none))

/-- `read_sm`: read the field, mask sentinel values, crop. -/
def read_sm (grid : List (List ℚ)) (latIdx lonIdx : List ℕ) :
    List (List (Option ℚ)) :=
  cropGrid (maskSentinel grid) latIdx lonIdx

/-- `np.nanmean` of one cell's stack of readings: the mean of the valid
readings, or the invalid marker when every reading is invalid. -/
def nanmeanCell (vs : List (Option ℚ)) : Option ℚ :=
  let valid := vs.filterMap id
  if valid.isEmpty then none else some (valid.sum / valid.length)

/-- `np.nanmean(sm_list, axis=0)` over a stack of (H, W) arrays. -/
def nanmeanStack (H W : ℕ) (gs : List (List (List (Option ℚ)))) :
    List (List (Option ℚ)) :=
  (List.range H).map (fun i => (List.range W).map (fun j =>
    nanmeanCell (gs.map (fun g => (g.getD i []).getD j none))))

/-- `daily[day][utc]`: the dictionary assignment keeps the last file with
a given (day, utc) pair, and only files whose code is in `UTC_CODES` are
registered. -/
def lookupGranule (tagged : List (ℕ × String × Granule)) (day : ℕ)
    (u : String) : Option Granule :=
  ((tagged.filter (fun t => t.1 = day ∧ t.2.1 = u)).getLast?).map (·.2.2)

/-- `[u for u in UTC_CODES if u not in daily[day]]`. -/
def missingCodesOf (tagged : List (ℕ × String × Granule)) (day : ℕ) :
    List String :=
  UTC_CODES.filter (fun u => (lookupGranule tagged day u).isNone)

/-- The Daily Raster of one complete day: crop each of the 8 readings and
take the per-cell nan-mean, in `UTC_CODES` order. -/
def dailyRaster (tagged : List (ℕ × String × Granule)) (day : ℕ)
    (latIdx lonIdx : List ℕ) : List (List (Option ℚ)) :=
  nanmeanStack latIdx.length lonIdx.length
    ((UTC_CODES.filterMap (lookupGranule tagged day)).map
      (fun g => read_sm g.grid latIdx lonIdx))

/-- The distinct day keys of the `daily` dictionary (only files whose UTC
code is canonical create a key). -/
def dayKeys (tagged : List (ℕ × String × Granule)) : List ℕ :=
  ((tagged.filter (fun t => UTC_CODES.contains t.2.1)).map (·.1)).dedup

/-- `sorted(daily)`: the day keys in ascending order.  Day keys are the
integer values of the 8-digit day strings, on which lexicographic string
order coincides with numeric order. -/
def sortedDays (tagged : List (ℕ × String × Granule)) : List ℕ :=
  List.insertionSort (· ≤ ·) (dayKeys tagged)

/-- The per-year HDF5 output of `aggregate_one_year` (one dataset per
field written by the script). -/
structure YearContainer where
  latitude : List ℚ
  longitude : List ℚ
  time : List ℕ
  sm_rootzone : List (List (List (Option ℚ)))
  data : List (List (Option ℚ))
  lat_flat : List ℚ
  lon_flat : List ℚ
deriving DecidableEq, Repr

/-- The day loop of `aggregate_one_year`, over the sorted day keys:
for each day compute the missing time-codes; in strict mode an incomplete
day raises; otherwise it is warned about and skipped; a complete day
contributes its Daily Raster and its date.  Returns the emitted warnings
and the (date, raster) pairs in day order. -/
def processDays (folder : String) (tagged : List (ℕ × String × Granule))
    (latIdx lonIdx : List ℕ) (strict : Bool) :
    List ℕ →
    Except AggError (List (ℕ × List String) × List (ℕ × List (List (Option ℚ))))
  | [] => .ok ([], [])
  | d :: ds =>
    let miss := missingCodesOf tagged d
    if miss.isEmpty then
      match processDays folder tagged latIdx lonIdx strict ds with
      | .error e => .error e
      | .ok (ws, rs) => .ok (ws, (d, dailyRaster tagged d latIdx lonIdx) :: rs)
    else if strict then .error (.missingCodes folder d miss)
    else
      match processDays folder tagged latIdx lonIdx strict ds with
      | .error e => .error e
      | .ok (ws, rs) => .ok ((d, miss) :: ws, rs)

/-- `lat_mesh.ravel()` for `lon_mesh, lat_mesh = np.meshgrid(lonCrop,
latCrop)`: each cropped latitude repeated once per longitude column, in
row-major order. -/
def mkLatFlat (latCrop lonCrop : List ℚ) : List ℚ :=
  (latCrop.map (fun a => List.replicate lonCrop.length a)).flatten

/-- `lon_mesh.ravel()`: the cropped longitude vector repeated once per
latitude row, in row-major order. -/
def mkLonFlat (latCrop lonCrop : List ℚ) : List ℚ :=
  (List.replicate latCrop.length lonCrop).flatten

/-- Assemble the Year Container from the (date, raster) pairs exactly as
the HDF5 write section does: stack the rasters, reshape row-major to
(T, H*W), and build the flattened meshgrid coordinates. -/
def buildContainer (latVec lonVec : List ℚ) (latIdx lonIdx : List ℕ)
    (rasters : List (ℕ × List (List (Option ℚ)))) : YearContainer :=
  let latCrop := selectIdx latVec latIdx
  let lonCrop := selectIdx lonVec lonIdx
  { latitude := latCrop
    longitude := lonCrop
    time := rasters.map (·.1)
    sm_rootzone := rasters.map (·.2)
    data := (rasters.map (·.2)).map List.flatten
    lat_flat := mkLatFlat latCrop lonCrop
    lon_flat := mkLonFlat latCrop lonCrop }

/-- `aggregate_one_year`: build the crop window from the first granule's
coordinate vectors (`latVec`, `lonVec`, passed here directly), group the
files by day and UTC code, run the day loop, and either write a Year
Container (`some`), skip the year (`none`: no files, or no complete day),
or raise (`.error`). -/
def aggregate_one_year (folder : String) (latVec lonVec : List ℚ)
    (files : List Granule) (latMin latMax lonMin lonMax : ℚ)
    (strict : Bool) :
    Except AggError (List (ℕ × List String) × Option YearContainer) :=
  if files.isEmpty then .ok ([], none)
  else
    let latIdx := cropIdx latVec latMin latMax
    let lonIdx := cropIdx lonVec lonMin lonMax
    if latIdx.isEmpty || lonIdx.isEmpty then .error .emptyCrop
    else
      match parseFiles files with
      | .error e => .error e
      | .ok tagged =>
        match processDays folder tagged latIdx lonIdx strict
            (sortedDays tagged) with
        | .error e => .error e
        | .ok (ws, rasters) =>
          if rasters.isEmpty then .ok (ws, none)
          else .ok (ws, some (buildContainer latVec lonVec latIdx lonIdx rasters))

/-- `np.reshape(v, (H, W))` in row-major order: row `r` holds the `W`
entries starting at flat offset `r * W`. -/
def reshapeRows (H W : ℕ) (v : List (Option ℚ)) : List (List (Option ℚ)) :=
  (List.range H).map (fun r => (v.drop (r * W)).take W)

/-! ### The Multi-Year Merger (`03_merge_yearly_daily.py`) -/

/-- The datasets of one `*_daily.h5` file that the merger reads. -/
structure YearFile where
  data : List (List (Option ℚ))
  time : List ℕ
  lat_flat : List ℚ
  lon_flat : List ℚ
deriving DecidableEq, Repr

/-- The merged output container. -/
structure MergedContainer where
  data : List (List (Option ℚ))
  time : List ℕ
  lat_flat : List ℚ
  lon_flat : List ℚ
deriving DecidableEq, Repr

/-- The message of the first merge assertion (`assert np.allclose(...),
"lat mismatch!"`). -/
def latMismatchMsg : String := "lat mismatch!"

/-- The message of the second merge assertion. -/
def lonMismatchMsg : String := "lon mismatch!"

/-- The `ValueError` message `np.concatenate` raises on an empty list. -/
def emptyMergeMsg : String := "need at least one array to concatenate"

/-- `np.allclose(a, b)` on 1-D arrays of the same length: elementwise
`|a - b| <= atol + rtol * |b|` with the default `rtol = 1e-5`,
`atol = 1e-8`. -/
def allclose (a b : List ℚ) : Bool :=
  a.length = b.length &&
    (a.zip b).all
      (fun p => decide (|p.1 - p.2| ≤ 1 / 100000000 + 1 / 100000 * |p.2|))

/-- The two `assert np.allclose(...)` checks, applied to every container
after the first; the first failing assertion aborts the merge with its
message. -/
def checkCoords (f0 : YearFile) : List YearFile → Except String Unit
  | [] => .ok ()
  | f :: fs =>
    if ¬ allclose f0.lat_flat f.lat_flat then .error latMismatchMsg
    else if ¬ allclose f0.lon_flat f.lon_flat then .error lonMismatchMsg
    else checkCoords f0 fs

/-- The date-range filter of one year file:
`valid_mask = (times >= start) & (times <= end)` applied to the rows of
`data` and to `times` together (the per-row (date, data row) pairs that
survive). -/
def filterRange (startD endD : ℕ) (f : YearFile) :
    List (ℕ × List (Option ℚ)) :=
  (f.time.zip f.data).filter
    (fun p => decide (startD ≤ p.1) && decide (p.1 ≤ endD))

/-- The whole merge script: take `lat_flat`/`lon_flat` from the first
year file, assert every later file's coordinates against them, filter
each file's rows to the inclusive date range, and concatenate along the
time axis.  An assertion failure (or an empty year list, on which
`np.concatenate` raises) yields `.error` and no output file is written. -/
def mergeYears (files : List YearFile) (startD endD : ℕ) :
    Except String MergedContainer :=
  match files with
  | [] => .error emptyMergeMsg
  | f0 :: rest =>
    match checkCoords f0 rest with
    | .error e => .error e
    | .ok _ =>
      let pairs := ((f0 :: rest).map (filterRange startD endD)).flatten
      .ok { data := pairs.map (·.2)
            time := pairs.map (·.1)
            lat_flat := f0.lat_flat
            lon_flat := f0.lon_flat }

/-! ### The check-and-move script (`01_check_and_move_smap.py`) -/

/-- Case-insensitive equality of character lists (`re.I` literals). -/
def lowerEq (a b : List Char) : Bool :=
  a.map Char.toLower = b.map Char.toLower

/-- Case-insensitive substring occurrence test. -/
def hasSubCI (sub : List Char) : List Char → Bool
  | [] => sub.isEmpty
  | c :: rest => lowerEq ((c :: rest).take sub.length) sub || hasSubCI sub rest

/-- Case-insensitive suffix test. -/
def endsWithCI (suffix cs : List Char) : Bool :=
  decide (suffix.length ≤ cs.length) &&
    lowerEq (cs.drop (cs.length - suffix.length)) suffix

/-- The literal head of the SMAP granule naming convention. -/
def gphHead : List Char := "SMAP_L4_SM_gph_".toList

/-- The character sequence ".h" of the glob pattern. -/
def dotH : List Char := ".h".toList

/-- The ".he5" filename suffix. -/
def dotHe5 : List Char := ".he5".toList

/-- The ".h5" filename suffix. -/
def dotH5 : List Char := ".h5".toList

/-- The filename glob `SMAP_L4_SM_gph_*.h*5` used by `rglob` (matched
case-insensitively, as on the Windows filesystem the script targets):
the literal head, then anything, then ".h", then anything, then "5". -/
def globMatch (n : String) : Bool :=
  let cs := n.toList
  decide (gphHead.length ≤ cs.length) && lowerEq (cs.take gphHead.length) gphHead &&
    (let r := cs.drop gphHead.length
     decide (r.getLastD ' ' = '5') && hasSubCI dotH r.dropLast)

/-- Attempt to match the regex
`SMAP_L4_SM_gph_(\d{8})T(\d{6})_.*\.h(?:e)?5$` (compiled with `re.I`)
at the head of `cs`, returning the date and time groups. -/
def gphMatchAt (cs : List Char) : Option (String × String) :=
  if lowerEq (cs.take gphHead.length) gphHead ∧ gphHead.length ≤ cs.length then
    match takeDigits 8 (cs.drop gphHead.length) with
    | none => none
    | some (d, r1) =>
      match r1 with
      | [] => none
      | t :: r2 =>
        if t.toLower = 't' then
          match takeDigits 6 r2 with
          | none => none
          | some (u, r3) =>
            match r3 with
            | [] => none
            | us :: r4 =>
              if us = '_' ∧
                  (endsWithCI dotHe5 r4 || endsWithCI dotH5 r4) then
                some (String.mk d, String.mk u)
              else none
        else none
  else none

/-- Leftmost search of the granule-name regex (`PATTERN.search`). -/
def gphSearch : List Char → Option (String × String)
  | [] => none
  | c :: rest =>
    match gphMatchAt (c :: rest) with
    | some m => some m
    | none => gphSearch rest

/-- Python's `f"{n:02d}"`: decimal rendering zero-padded to width 2. -/
def pad2 (n : ℕ) : String :=
  if n < 10 then "0" ++ toString n else toString n

/-- `adjust_2015_date`: strings not starting "2015" pass through; a 2015
date before March 31 raises `ValueError` (modelled as `.error` carrying
the offending string); otherwise the function computes a day-of-year
offset it never uses and re-renders the original month and day. -/
def adjust_2015_date (s : String) : Except String String :=
  let cs := s.toList
  if cs.take 4 ≠ "2015".toList then .ok s
  else
    let month := natOfDigits ((cs.drop 4).take 2)
    let day := natOfDigits ((cs.drop 6).take 2)
    if month < 3 ∨ (month = 3 ∧ day < 31) then .error s
    else
      let days_in_month : List ℕ := [31, 28, 31, 30, 31, 30, 31, 31, 30, 31, 30, 31]
      let day_of_year := (days_in_month.take (month - 1)).sum + day
      let _new_day_of_year := day_of_year - 90 + 1
      .ok ("2015" ++ pad2 month ++ pad2 day)

/-- What `gather_files` does with one file name. -/
inductive GatherOutcome where
  | ignored
  | loggedSkip (name reason : String)
  | kept (day utc : String)
deriving DecidableEq, Repr

/-- Classify one file name as `gather_files` would: names failing the
glob or the regex are ignored without any message; a matching name whose
date does not start with the target year is ignored; for the year
"2015" a date before March 31 is skipped with a printed reason;
otherwise the (possibly adjusted) day and the UTC code are kept. -/
def gatherOne (year : String) (n : String) : GatherOutcome :=
  if ¬ globMatch n then .ignored
  else
    match gphSearch n.toList with
    | none => .ignored
    | some (day, utc) =>
      if ¬ year.toList.isPrefixOf day.toList then .ignored
      else if year = "2015" then
        match adjust_2015_date day with
        | .error e => .loggedSkip n e
        | .ok day2 => .kept day2 utc
      else .kept day utc

/-- `gather_files`: the kept (day, utc, name) records in scan order
(the `by_day` dictionary groups these by day), and the skip messages
printed along the way.  Non-matching names contribute to neither. -/
def gather_files (year : String) (names : List String) :
    List (String × String × String) × List String :=
  names.foldr
    (fun n acc =>
      match gatherOne year n with
      | .ignored => acc
      | .loggedSkip nm _ => (acc.1, nm :: acc.2)
      | .kept d u => ((d, u, n) :: acc.1, acc.2))
    ([], [])

/-! ### Concrete sample inputs used to exercise the definitions -/

/-- A synthetic granule for one UTC code of day 20190101: the 01:30
reading holds the sentinel value -9999 at cell (0,0), every other
granule holds 4 there; cell (0,1) reads 2 in all granules. -/
def sampleGranule (u : String) : Granule :=
  if u = "013000" then
    ⟨"SMAP_L4_SM_gph_20190101T013000_a.h5", [[-9999, 2], [3, 4]]⟩
  else if u = "043000" then
    ⟨"SMAP_L4_SM_gph_20190101T043000_a.h5", [[4, 2], [3, 4]]⟩
  else if u = "073000" then
    ⟨"SMAP_L4_SM_gph_20190101T073000_a.h5", [[4, 2], [3, 4]]⟩
  else if u = "103000" then
    ⟨"SMAP_L4_SM_gph_20190101T103000_a.h5", [[4, 2], [3, 4]]⟩
  else if u = "133000" then
    ⟨"SMAP_L4_SM_gph_20190101T133000_a.h5", [[4, 2], [3, 4]]⟩
  else if u = "163000" then
    ⟨"SMAP_L4_SM_gph_20190101T163000_a.h5", [[4, 2], [3, 4]]⟩
  else if u = "193000" then
    ⟨"SMAP_L4_SM_gph_20190101T193000_a.h5", [[4, 2], [3, 4]]⟩
  else
    ⟨"SMAP_L4_SM_gph_20190101T223000_a.h5", [[4, 2], [3, 4]]⟩

/-- The tagged file list of the 8 sample granules of day 20190101. -/
def sampleTagged : List (ℕ × String × Granule) :=
  UTC_CODES.map (fun u => (20190101, u, sampleGranule u))

/-- The sample granules as a plain file list. -/
def sampleFiles : List Granule := UTC_CODES.map sampleGranule

/-- A single granule leaving its day incomplete (7 codes missing). -/
def loneGranule : Granule :=
  ⟨"SMAP_L4_SM_gph_20190101T013000_a.h5", [[1]]⟩

/-- The tagged file list obtained from the lone granule. -/
def loneTagged : List (ℕ × String × Granule) :=
  [(20190101, "013000", loneGranule)]

/-- The folder label used in concrete runs of the aggregation. -/
def folder2019 : String := "2019"

/-- The target-year string of the 2015 special case. -/
def yr2015 : String := "2015"

/-- A file name without any parsable timestamp. -/
def junkName : String := "SMAP_junk.h5"

/-- Another file name without any parsable timestamp. -/
def junk2Name : String := "SMAP_junk2.h5"

/-- A well-formed granule name whose 2015 date precedes March 31. -/
def skipName : String := "SMAP_L4_SM_gph_20150210T013000_a.h5"

/-- The early-2015 date of `skipName`. -/
def day0210 : String := "20150210"

/-- An accepted 2015 date. -/
def day0401 : String := "20150401"

/-- The first canonical UTC code. -/
def utc013 : String := "013000"

/-- The Year Container the aggregation computes from the sample granules
with reference vectors [30, 60] / [100, 140] and the configured
bounding box (which crops to index [0] on each axis). -/
def sampleContainer : YearContainer :=
  buildContainer [30, 60] [100, 140] [0] [0]
    [(20190101, dailyRaster sampleTagged 20190101 [0] [0])]

/-! ### Helper lemmas -/

lemma checkCoords_ok_iff (f0 : YearFile) (rest : List YearFile) :
    checkCoords f0 rest = .ok () ↔
      ∀ f ∈ rest, allclose f0.lat_flat f.lat_flat = true ∧
        allclose f0.lon_flat f.lon_flat = true := by
  induction rest with
  | nil => simp [checkCoords]
  | cons f fs ih =>
    by_cases hlat : allclose f0.lat_flat f.lat_flat = true
    · by_cases hlon : allclose f0.lon_flat f.lon_flat = true
      · simp [checkCoords, hlat, hlon, ih]
      · simp [checkCoords, hlat, hlon]
    · simp [checkCoords, hlat]

lemma checkCoords_error (f0 : YearFile) (rest : List YearFile)
    (h : ¬ ∀ f ∈ rest, allclose f0.lat_flat f.lat_flat = true ∧
      allclose f0.lon_flat f.lon_flat = true) :
    ∃ msg, checkCoords f0 rest = .error msg := by
  rcases hc : checkCoords f0 rest with msg | u
  · exact ⟨msg, rfl⟩
  · cases u
    exact absurd ((checkCoords_ok_iff f0 rest).mp hc) h

lemma parseFiles_first_bad (files : List Granule)
    (h : ∃ g ∈ files, timeSearch g.name.toList = none) :
    ∃ g', g' ∈ files ∧ timeSearch g'.name.toList = none ∧
      parseFiles files = .error (.badFilename g'.name) := by
  induction files with
  | nil => simp at h
  | cons g gs ih =>
    rcases hg : timeSearch g.name.toList with _ | du
    · have hg2 : timeSearch g.name.data = none := hg
      exact ⟨g, List.mem_cons_self g gs, hg, by simp [parseFiles, hg, hg2]⟩
    · have h' : ∃ g ∈ gs, timeSearch g.name.toList = none := by
        rcases h with ⟨g0, hmem, hnone⟩
        rcases List.mem_cons.mp hmem with rfl | hmem'
        · rw [hg] at hnone; cases hnone
        · exact ⟨g0, hmem', hnone⟩
      rcases ih h' with ⟨g', hmem', hnone', heq⟩
      refine ⟨g', List.mem_cons_of_mem g hmem', hnone', ?_⟩
      rcases du with ⟨d, u⟩
      have hg2 : timeSearch g.name.data = some (d, u) := hg
      simp [parseFiles, hg, hg2, heq]

lemma gather_files_cons (year n : String) (ns : List String) :
    gather_files year (n :: ns) =
      match gatherOne year n with
      | .ignored => gather_files year ns
      | .loggedSkip nm _ =>
          ((gather_files year ns).1, nm :: (gather_files year ns).2)
      | .kept d u =>
          ((d, u, n) :: (gather_files year ns).1, (gather_files year ns).2) := by
  rfl

lemma getD_map {α β : Type} (f : α → β) (l : List α) {i : ℕ}
    (h : i < l.length) (d : β) (d' : α) :
    (l.map f).getD i d = f (l.getD i d') := by
  rw [List.getD_eq_getElem?_getD, List.getElem?_map,
    List.getElem?_eq_getElem h, List.getD_eq_getElem?_getD,
    List.getElem?_eq_getElem h]
  rfl

lemma getD_mem {α : Type} (l : List α) (i : ℕ) (d : α) (h : i < l.length) :
    l.getD i d ∈ l := by
  rw [List.getD_eq_getElem l d h]
  exact List.getElem_mem h

lemma getD_range {n i : ℕ} (h : i < n) : (List.range n).getD i 0 = i := by
  rw [List.getD_eq_getElem?_getD,
    List.getElem?_eq_getElem (by simpa using h)]
  simp

lemma nanmeanStack_shape (H W : ℕ) (gs : List (List (List (Option ℚ)))) :
    (nanmeanStack H W gs).length = H ∧
      ∀ row ∈ nanmeanStack H W gs, row.length = W := by
  constructor
  · simp [nanmeanStack]
  · intro row hrow
    rcases List.mem_map.mp hrow with ⟨i, _, rfl⟩
    simp

lemma nanmeanStack_cell (H W : ℕ) (gs : List (List (List (Option ℚ))))
    {i j : ℕ} (hi : i < H) (hj : j < W) :
    ((nanmeanStack H W gs).getD i []).getD j none =
      nanmeanCell (gs.map (fun g => (g.getD i []).getD j none)) := by
  unfold nanmeanStack
  rw [getD_map _ _ (by simpa using hi) _ 0, getD_range hi,
    getD_map _ _ (by simpa using hj) _ 0, getD_range hj]

lemma filterMap_eq_map_of_some {α β : Type} (f : α → Option β) (g : α → β)
    (l : List α) (h : ∀ x ∈ l, f x = some (g x)) :
    l.filterMap f = l.map g := by
  induction l with
  | nil => rfl
  | cons a as ih =>
    rw [List.filterMap_cons, h a (List.mem_cons_self a as), List.map_cons,
      ih (fun x hx => h x (List.mem_cons_of_mem a hx))]

lemma filterMap_id_mask (vs : List ℚ) :
    ((vs.map (fun v => if v < -9000 then none else some v)).filterMap id) =
      vs.filter (fun v => decide (-9000 ≤ v)) := by
  induction vs with
  | nil => rfl
  | cons v rest ih =>
    by_cases hv : v < -9000
    · have : (decide (-9000 ≤ v)) = false := by simpa using hv
      simp [hv, this, ih]
    · have : (decide (-9000 ≤ v)) = true := by simpa using not_lt.mp hv
      simp [hv, this, ih]

lemma read_sm_cell (grid : List (List ℚ)) (latIdx lonIdx : List ℕ)
    {i j : ℕ} (hi : i < latIdx.length) (hj : j < lonIdx.length)
    (ha : latIdx.getD i 0 < grid.length)
    (hb : lonIdx.getD j 0 < (grid.getD (latIdx.getD i 0) []).length) :
    ((read_sm grid latIdx lonIdx).getD i []).getD j none =
      (if (grid.getD (latIdx.getD i 0) []).getD (lonIdx.getD j 0) 0 < -9000
       then none
       else some ((grid.getD (latIdx.getD i 0) []).getD (lonIdx.getD j 0) 0)) := by
  unfold read_sm cropGrid maskSentinel
  rw [getD_map _ _ hi _ 0, getD_map _ _ hj _ 0,
    getD_map _ _ (by simpa using ha) _ [],
    getD_map _ _ hb _ 0]

lemma map_fst_pairing {α β : Type} (f : α → β) (l : List α) :
    (l.map (fun d => (d, f d))).map (fun p => p.1) = l := by
  induction l with
  | nil => rfl
  | cons a as ih => simp [ih]

lemma map_snd_pairing {α β : Type} (f : α → β) (l : List α) :
    (l.map (fun d => (d, f d))).map (fun p => p.2) = l.map f := by
  induction l with
  | nil => rfl
  | cons a as ih => simp [ih]

lemma aggregate_ok_some
    {folder : String} {latVec lonVec : List ℚ} {files : List Granule}
    {latMin latMax lonMin lonMax : ℚ} {strict : Bool}
    {ws : List (ℕ × List String)} {c : YearContainer}
    (h : aggregate_one_year folder latVec lonVec files latMin latMax lonMin
      lonMax strict = .ok (ws, some c)) :
    ∃ tagged rasters,
      parseFiles files = .ok tagged ∧
      processDays folder tagged (cropIdx latVec latMin latMax)
        (cropIdx lonVec lonMin lonMax) strict (sortedDays tagged) =
        .ok (ws, rasters) ∧
      rasters ≠ [] ∧
      c = buildContainer latVec lonVec (cropIdx latVec latMin latMax)
        (cropIdx lonVec lonMin lonMax) rasters := by
  simp only [aggregate_one_year] at h
  by_cases hfe : files.isEmpty = true
  · rw [if_pos hfe] at h
    simp at h
  · rw [if_neg hfe] at h
    by_cases hle : ((cropIdx latVec latMin latMax).isEmpty ||
        (cropIdx lonVec lonMin lonMax).isEmpty) = true
    · rw [if_pos hle] at h
      simp at h
    · rw [if_neg hle] at h
      rcases hp : parseFiles files with e | tagged
      · rw [hp] at h
        simp at h
      · rw [hp] at h
        dsimp only at h
        rcases hpd : processDays folder tagged (cropIdx latVec latMin latMax)
            (cropIdx lonVec lonMin lonMax) strict (sortedDays tagged) with
          e | wr
        · rw [hpd] at h
          simp at h
        · rcases wr with ⟨ws', rasters⟩
          rw [hpd] at h
          dsimp only at h
          by_cases hre : rasters.isEmpty = true
          · rw [if_pos hre] at h
            simp at h
          · rw [if_neg hre] at h
            simp only [Except.ok.injEq, Prod.mk.injEq, Option.some.injEq] at h
            obtain ⟨hws, hc⟩ := h
            subst hws
            exact ⟨tagged, rasters, rfl, hpd,
              fun hnil => hre (by simp [hnil]), hc.symm⟩

lemma aggregate_main_eq
    {folder : String} {latVec lonVec : List ℚ} {files : List Granule}
    {latMin latMax lonMin lonMax : ℚ} {strict : Bool}
    {tagged : List (ℕ × String × Granule)}
    (hfe : files.isEmpty = false)
    (hlat : (cropIdx latVec latMin latMax).isEmpty = false)
    (hlon : (cropIdx lonVec lonMin lonMax).isEmpty = false)
    (hp : parseFiles files = .ok tagged) :
    aggregate_one_year folder latVec lonVec files latMin latMax lonMin lonMax
      strict =
      match processDays folder tagged (cropIdx latVec latMin latMax)
          (cropIdx lonVec lonMin lonMax) strict (sortedDays tagged) with
      | .error e => .error e
      | .ok (ws, rasters) =>
        if rasters.isEmpty then .ok (ws, none)
        else .ok (ws, some (buildContainer latVec lonVec
            (cropIdx latVec latMin latMax) (cropIdx lonVec lonMin lonMax)
            rasters)) := by
  simp only [aggregate_one_year, hfe, hlat, hlon, hp]
  simp

lemma processDays_ok_rasters
    {folder : String} {tagged : List (ℕ × String × Granule)}
    {latIdx lonIdx : List ℕ} {strict : Bool} {ds : List ℕ}
    {ws : List (ℕ × List String)} {rs : List (ℕ × List (List (Option ℚ)))}
    (h : processDays folder tagged latIdx lonIdx strict ds = .ok (ws, rs)) :
    rs = (ds.filter (fun d => (missingCodesOf tagged d).isEmpty)).map
      (fun d => (d, dailyRaster tagged d latIdx lonIdx)) := by
  induction ds generalizing ws rs with
  | nil =>
    simp only [processDays, Except.ok.injEq, Prod.mk.injEq] at h
    rw [← h.2]
    rfl
  | cons d ds ih =>
    simp only [processDays] at h
    by_cases hm : (missingCodesOf tagged d).isEmpty = true
    · rw [if_pos hm] at h
      rcases hr : processDays folder tagged latIdx lonIdx strict ds with
        e | wr
      · rw [hr] at h
        simp at h
      · rcases wr with ⟨ws', rs'⟩
        rw [hr] at h
        dsimp only at h
        simp only [Except.ok.injEq, Prod.mk.injEq] at h
        rw [← h.2, List.filter_cons, hm, if_pos rfl, List.map_cons, ih hr]
    · rw [if_neg hm] at h
      by_cases hs : strict = true
      · rw [hs] at h
        simp at h
      · rw [Bool.not_eq_true] at hs
        rw [hs] at h
        rw [if_neg (by simp : ¬(false = true))] at h
        rcases hr : processDays folder tagged latIdx lonIdx false ds with
          e | wr
        · rw [hr] at h
          simp at h
        · rcases wr with ⟨ws', rs'⟩
          rw [hr] at h
          dsimp only at h
          simp only [Except.ok.injEq, Prod.mk.injEq] at h
          rw [← h.2, List.filter_cons]
          have hm' : ((missingCodesOf tagged d).isEmpty : Bool) = false := by
            simpa using hm
          rw [hm', if_neg (by simp)]
          rw [← hs] at hr
          exact ih hr

lemma processDays_strict_first_error
    (folder : String) (tagged : List (ℕ × String × Granule))
    (latIdx lonIdx : List ℕ) {ds : List ℕ}
    (h : ∃ d ∈ ds, (missingCodesOf tagged d).isEmpty = false) :
    ∃ d, d ∈ ds ∧ (missingCodesOf tagged d).isEmpty = false ∧
      processDays folder tagged latIdx lonIdx true ds =
        .error (.missingCodes folder d (missingCodesOf tagged d)) := by
  induction ds with
  | nil => simp at h
  | cons d ds ih =>
    by_cases hm : (missingCodesOf tagged d).isEmpty = true
    · have h' : ∃ d' ∈ ds, (missingCodesOf tagged d').isEmpty = false := by
        rcases h with ⟨d0, hmem, hinc⟩
        rcases List.mem_cons.mp hmem with rfl | hmem'
        · rw [hm] at hinc
          cases hinc
        · exact ⟨d0, hmem', hinc⟩
      rcases ih h' with ⟨d', hmem', hinc', heq⟩
      refine ⟨d', List.mem_cons_of_mem d hmem', hinc', ?_⟩
      simp only [processDays, if_pos hm, heq]
    · refine ⟨d, List.mem_cons_self d ds, by simpa using hm, ?_⟩
      simp only [processDays, if_neg hm]
      simp

lemma processDays_nonstrict_ok (folder : String)
    (tagged : List (ℕ × String × Granule)) (latIdx lonIdx : List ℕ)
    (ds : List ℕ) :
    processDays folder tagged latIdx lonIdx false ds =
      .ok ((ds.filter (fun d => !(missingCodesOf tagged d).isEmpty)).map
            (fun d => (d, missingCodesOf tagged d)),
          (ds.filter (fun d => (missingCodesOf tagged d).isEmpty)).map
            (fun d => (d, dailyRaster tagged d latIdx lonIdx))) := by
  induction ds with
  | nil => rfl
  | cons d ds ih =>
    by_cases hm : (missingCodesOf tagged d).isEmpty = true
    · simp only [processDays, if_pos hm, ih, List.filter_cons, hm]
      simp
    · have hm' : ((missingCodesOf tagged d).isEmpty : Bool) = false := by
        simpa using hm
      simp only [processDays, if_neg hm, ih, List.filter_cons, hm']
      simp

lemma sortedDays_pairwise (tagged : List (ℕ × String × Granule)) :
    (sortedDays tagged).Pairwise (· < ·) := by
  have hperm := List.perm_insertionSort (fun a b : ℕ => a ≤ b) (dayKeys tagged)
  have hnd : (sortedDays tagged).Nodup :=
    hperm.nodup_iff.mpr (List.nodup_dedup _)
  have hsorted : (sortedDays tagged).Sorted (· ≤ ·) :=
    List.sorted_insertionSort (· ≤ ·) (dayKeys tagged)
  exact (hsorted.and hnd).imp (fun hab => lt_of_le_of_ne hab.1 hab.2)

lemma mem_sortedDays (tagged : List (ℕ × String × Granule)) (t : ℕ) :
    t ∈ sortedDays tagged ↔ t ∈ dayKeys tagged :=
  (List.perm_insertionSort (· ≤ ·) (dayKeys tagged)).mem_iff

lemma length_flatten_const {α : Type} (L : List (List α)) (W : ℕ)
    (h : ∀ l ∈ L, l.length = W) : L.flatten.length = L.length * W := by
  induction L with
  | nil => simp
  | cons l ls ih =>
    have := h l (List.mem_cons_self l ls)
    simp only [List.flatten_cons, List.length_append, List.length_cons, this,
      ih (fun x hx => h x (List.mem_cons_of_mem l hx))]
    ring

lemma getD_flatten_const {α : Type} (L : List (List α)) (W : ℕ) (d : α)
    (h : ∀ l ∈ L, l.length = W) {i : ℕ} (hi : i < L.length * W) :
    L.flatten.getD i d = (L.getD (i / W) []).getD (i % W) d := by
  induction L generalizing i with
  | nil => simp at hi
  | cons l ls ih =>
    have hW : 0 < W := by
      rcases Nat.eq_zero_or_pos W with h0 | h0
      · rw [h0, Nat.mul_zero] at hi
        exact absurd hi (Nat.not_lt_zero i)
      · exact h0
    have hl : l.length = W := h l (List.mem_cons_self l ls)
    by_cases hiW : i < W
    · have hdiv : i / W = 0 := Nat.div_eq_of_lt hiW
      have hmod : i % W = i := Nat.mod_eq_of_lt hiW
      rw [List.flatten_cons, List.getD_append _ _ _ _ (by rw [hl]; exact hiW),
        hdiv, hmod, List.getD_cons_zero]
    · push_neg at hiW
      have hi' : i - W < ls.length * W := by
        have hx : i < ls.length * W + W := by
          have : (l :: ls).length * W = ls.length * W + W := by
            rw [List.length_cons, Nat.succ_mul]
          rw [this] at hi
          exact hi
        omega
      rw [List.flatten_cons,
        List.getD_append_right _ _ _ _ (by rw [hl]; exact hiW), hl,
        ih (fun x hx => h x (List.mem_cons_of_mem l hx)) hi']
      congr 1
      · rw [Nat.div_eq_sub_div hW hiW, List.getD_cons_succ]
      · rw [Nat.mod_eq_sub_mod hiW]

lemma mkLatFlat_length (latc lonc : List ℚ) :
    (mkLatFlat latc lonc).length = latc.length * lonc.length := by
  unfold mkLatFlat
  rw [length_flatten_const _ lonc.length, List.length_map]
  intro l hl
  rcases List.mem_map.mp hl with ⟨a, _, rfl⟩
  simp

lemma mkLonFlat_length (latc lonc : List ℚ) :
    (mkLonFlat latc lonc).length = latc.length * lonc.length := by
  unfold mkLonFlat
  rw [length_flatten_const _ lonc.length, List.length_replicate]
  intro l hl
  rw [List.eq_of_mem_replicate hl]

lemma mkLatFlat_getD (latc lonc : List ℚ) {i : ℕ}
    (hi : i < latc.length * lonc.length) :
    (mkLatFlat latc lonc).getD i 0 = latc.getD (i / lonc.length) 0 := by
  have hW : 0 < lonc.length := by
    rcases Nat.eq_zero_or_pos lonc.length with h0 | h0
    · rw [h0, Nat.mul_zero] at hi
      exact absurd hi (Nat.not_lt_zero i)
    · exact h0
  have hdiv : i / lonc.length < latc.length :=
    (Nat.div_lt_iff_lt_mul hW).mpr hi
  unfold mkLatFlat
  rw [getD_flatten_const _ lonc.length 0
      (by intro l hl; rcases List.mem_map.mp hl with ⟨a, _, rfl⟩; simp)
      (by simpa using hi),
    getD_map _ _ (by simpa using hdiv) _ 0,
    List.getD_eq_getElem _ _ (by simp [Nat.mod_lt i hW]),
    List.getElem_replicate]

lemma mkLonFlat_getD (latc lonc : List ℚ) {i : ℕ}
    (hi : i < latc.length * lonc.length) :
    (mkLonFlat latc lonc).getD i 0 = lonc.getD (i % lonc.length) 0 := by
  have hW : 0 < lonc.length := by
    rcases Nat.eq_zero_or_pos lonc.length with h0 | h0
    · rw [h0, Nat.mul_zero] at hi
      exact absurd hi (Nat.not_lt_zero i)
    · exact h0
  have hdiv : i / lonc.length < latc.length :=
    (Nat.div_lt_iff_lt_mul hW).mpr hi
  unfold mkLonFlat
  rw [getD_flatten_const _ lonc.length 0
      (by intro l hl; rw [List.eq_of_mem_replicate hl])
      (by simpa using hi)]
  have hrep : (List.replicate latc.length lonc).getD (i / lonc.length) []
      = lonc := by
    rw [List.getD_eq_getElem _ _ (by simpa using hdiv),
      List.getElem_replicate]
  rw [hrep]

lemma reshapeRows_flatten {rows : List (List (Option ℚ))} {W : ℕ}
    (hlen : ∀ r ∈ rows, r.length = W) :
    reshapeRows rows.length W rows.flatten = rows := by
  induction rows with
  | nil => rfl
  | cons l ls ih =>
    have hl : l.length = W := hlen l (List.mem_cons_self l ls)
    unfold reshapeRows
    rw [List.length_cons, List.range_succ_eq_map, List.map_cons, List.map_map]
    congr 1
    · rw [Nat.zero_mul, List.drop_zero, List.flatten_cons, ← hl,
        List.take_left]
    · have hfun : ((fun r => ((l :: ls).flatten.drop (r * W)).take W) ∘
          Nat.succ) = (fun r => (ls.flatten.drop (r * W)).take W) := by
        funext r
        simp only [Function.comp_apply]
        rw [List.flatten_cons, Nat.succ_mul, Nat.add_comm, ← List.drop_drop,
          ← hl, List.drop_left]
      rw [hfun]
      have := ih (fun x hx => hlen x (List.mem_cons_of_mem l hx))
      unfold reshapeRows at this
      exact this

lemma zip_self_mem {α : Type} (a : List α) : ∀ p ∈ a.zip a, p.1 = p.2 := by
  induction a with
  | nil =>
    intro p hp
    cases hp
  | cons x xs ih =>
    intro p hp
    rcases List.mem_cons.mp hp with rfl | hp'
    · rfl
    · exact ih p hp'

lemma allclose_self (a : List ℚ) : allclose a a = true := by
  unfold allclose
  rw [Bool.and_eq_true]
  constructor
  · simp
  · rw [List.all_eq_true]
    intro p hp
    rw [decide_eq_true_eq, zip_self_mem a p hp, sub_self, abs_zero]
    positivity

lemma map_fst_zip_sublist {α β : Type} :
    ∀ (a : List α) (b : List β), ((a.zip b).map Prod.fst).Sublist a
  | [], _ => by simp
  | _ :: _, [] => by simp
  | x :: xs, y :: ys => by
    simp only [List.zip_cons_cons, List.map_cons]
    exact List.Sublist.cons₂ x (map_fst_zip_sublist xs ys)

lemma filterRange_fst_sublist (startD endD : ℕ) (f : YearFile) :
    ((filterRange startD endD f).map Prod.fst).Sublist f.time :=
  ((List.filter_sublist _).map Prod.fst).trans
    (map_fst_zip_sublist f.time f.data)

lemma mem_filterRange_fst {startD endD : ℕ} {f : YearFile}
    (hlen : f.time.length = f.data.length) (t : ℕ) :
    t ∈ (filterRange startD endD f).map Prod.fst ↔
      t ∈ f.time ∧ startD ≤ t ∧ t ≤ endD := by
  constructor
  · intro ht
    rcases List.mem_map.mp ht with ⟨p, hp, rfl⟩
    rcases List.mem_filter.mp hp with ⟨hpz, hcond⟩
    simp only [Bool.and_eq_true, decide_eq_true_eq] at hcond
    refine ⟨?_, hcond.1, hcond.2⟩
    have hm : p.1 ∈ (f.time.zip f.data).map Prod.fst :=
      List.mem_map.mpr ⟨p, hpz, rfl⟩
    rw [List.map_fst_zip _ _ (le_of_eq hlen)] at hm
    exact hm
  · rintro ⟨htime, hs, he⟩
    have hm : t ∈ (f.time.zip f.data).map Prod.fst := by
      rw [List.map_fst_zip _ _ (le_of_eq hlen)]
      exact htime
    rcases List.mem_map.mp hm with ⟨p, hpz, hpt⟩
    exact List.mem_map.mpr
      ⟨p, List.mem_filter.mpr ⟨hpz, by simp [hpt, hs, he]⟩, hpt⟩

lemma digit_char_cases {a : Char} (h : a.isDigit = true) :
    a = '0' ∨ a = '1' ∨ a = '2' ∨ a = '3' ∨ a = '4' ∨ a = '5' ∨ a = '6' ∨
    a = '7' ∨ a = '8' ∨ a = '9' := by
  rcases a with ⟨⟨⟨n, hn⟩⟩, hv⟩
  simp only [Char.isDigit] at h
  rw [Bool.and_eq_true] at h
  obtain ⟨h1, h2⟩ := h
  simp only [Char.le_def, decide_eq_true_eq] at h1 h2
  have hb1 : 48 ≤ n := h1
  have hb2 : n ≤ 57 := h2
  interval_cases n <;>
    first
      | exact Or.inl rfl
      | exact Or.inr (Or.inl rfl)
      | exact Or.inr (Or.inr (Or.inl rfl))
      | exact Or.inr (Or.inr (Or.inr (Or.inl rfl)))
      | exact Or.inr (Or.inr (Or.inr (Or.inr (Or.inl rfl))))
      | exact Or.inr (Or.inr (Or.inr (Or.inr (Or.inr (Or.inl rfl)))))
      | exact Or.inr (Or.inr (Or.inr (Or.inr (Or.inr (Or.inr
          (Or.inl rfl))))))
      | exact Or.inr (Or.inr (Or.inr (Or.inr (Or.inr (Or.inr (Or.inr
          (Or.inl rfl)))))))
      | exact Or.inr (Or.inr (Or.inr (Or.inr (Or.inr (Or.inr (Or.inr
          (Or.inr (Or.inl rfl))))))))
      | exact Or.inr (Or.inr (Or.inr (Or.inr (Or.inr (Or.inr (Or.inr
          (Or.inr (Or.inr rfl))))))))

lemma pad2_digits {a b : Char} (ha : a.isDigit = true)
    (hb : b.isDigit = true) :
    pad2 (natOfDigits [a, b]) = String.mk [a, b] := by
  rcases digit_char_cases ha with
    rfl | rfl | rfl | rfl | rfl | rfl | rfl | rfl | rfl | rfl <;>
  rcases digit_char_cases hb with
    rfl | rfl | rfl | rfl | rfl | rfl | rfl | rfl | rfl | rfl <;>
  decide

/-! ### Claim theorems -/

/-- C2: for a day with all 8 canonical time-code granules present, the
Daily Raster has shape (crop-height, crop-width), and each cell is the
arithmetic mean of the raw readings at that cell's cropped grid position
across the 8 granules, excluding readings below the sentinel threshold
-9000; a cell with no valid reading yields the not-a-number marker. -/
theorem dailyRaster_mean (tagged : List (ℕ × String × Granule)) (day : ℕ)
    (latIdx lonIdx : List ℕ) (g : String → Granule)
    (hall : ∀ u ∈ UTC_CODES, lookupGranule tagged day u = some (g u))
    (hbounds : ∀ u ∈ UTC_CODES, ∀ a ∈ latIdx, a < (g u).grid.length ∧
      ∀ b ∈ lonIdx, b < ((g u).grid.getD a []).length) :
    (dailyRaster tagged day latIdx lonIdx).length = latIdx.length ∧
    (∀ row ∈ dailyRaster tagged day latIdx lonIdx,
      row.length = lonIdx.length) ∧
    (∀ i j, i < latIdx.length → j < lonIdx.length →
      ((dailyRaster tagged day latIdx lonIdx).getD i []).getD j none =
        (let readings := UTC_CODES.map (fun u =>
          ((g u).grid.getD (latIdx.getD i 0) []).getD (lonIdx.getD j 0) 0);
        let valid := readings.filter (fun v => decide (-9000 ≤ v));
        if valid.isEmpty then none
        else some (valid.sum / valid.length))) := by
  have hfm : UTC_CODES.filterMap (lookupGranule tagged day) = UTC_CODES.map g :=
    filterMap_eq_map_of_some _ _ _ hall
  refine ⟨(nanmeanStack_shape _ _ _).1, (nanmeanStack_shape _ _ _).2, ?_⟩
  intro i j hi hj
  unfold dailyRaster
  rw [hfm, List.map_map, nanmeanStack_cell _ _ _ hi hj, List.map_map]
  have hcells : (UTC_CODES.map
      ((fun G => (G.getD i []).getD j none) ∘
        (fun g' => read_sm g'.grid latIdx lonIdx) ∘ g)) =
      (UTC_CODES.map (fun u =>
        ((g u).grid.getD (latIdx.getD i 0) []).getD (lonIdx.getD j 0) 0)).map
        (fun v => if v < -9000 then none else some v) := by
    rw [List.map_map]
    refine List.map_congr_left ?_
    intro u hu
    have hb := hbounds u hu
    exact read_sm_cell (g u).grid latIdx lonIdx hi hj
      (hb (latIdx.getD i 0) (getD_mem _ _ _ hi)).1
      ((hb (latIdx.getD i 0) (getD_mem _ _ _ hi)).2
        (lonIdx.getD j 0) (getD_mem _ _ _ hj))
  rw [hcells]
  unfold nanmeanCell
  rw [filterMap_id_mask]

/-- C7: the Spatial Cropper yields exactly the indices whose coordinate
lies within the inclusive bounding box, and an empty index set on either
axis makes `aggregate_one_year` raise the empty-crop error. -/
theorem cropIdx_correct (vec latVec lonVec : List ℚ) (lo hi : ℚ)
    (folder : String) (files : List Granule)
    (latMin latMax lonMin lonMax : ℚ) (strict : Bool)
    (hne : files ≠ []) :
    (∀ i, i ∈ cropIdx vec lo hi ↔
      i < vec.length ∧ lo ≤ vec.getD i 0 ∧ vec.getD i 0 ≤ hi) ∧
    ((cropIdx latVec latMin latMax = [] ∨ cropIdx lonVec lonMin lonMax = []) →
      aggregate_one_year folder latVec lonVec files latMin latMax lonMin lonMax
        strict = .error .emptyCrop) := by
  constructor
  · intro i
    simp [cropIdx, List.mem_filter, List.mem_range, and_assoc]
  · intro hempty
    have hfe : files.isEmpty = false := by
      cases files with
      | nil => exact absurd rfl hne
      | cons a l => rfl
    have : (cropIdx latVec latMin latMax).isEmpty = true ∨
        (cropIdx lonVec lonMin lonMax).isEmpty = true := by
      rcases hempty with h | h <;> [left; right] <;> simp [h]
    simp only [aggregate_one_year, hfe, Bool.false_eq_true, if_false]
    rcases this with h | h <;> simp [h]

theorem cropIdx_correct_witness :
    ([⟨"f", [[1]]⟩] : List Granule) ≠ [] ∧
    ((∀ i, i ∈ cropIdx [10, 20, 30, 40] 15 35 ↔
      i < ([10, 20, 30, 40] : List ℚ).length ∧
        15 ≤ ([10, 20, 30, 40] : List ℚ).getD i 0 ∧
        ([10, 20, 30, 40] : List ℚ).getD i 0 ≤ 35) ∧
    ((cropIdx [30] 200 300 = [] ∨ cropIdx [100] 73 136 = []) →
      aggregate_one_year folder2019 [30] [100] [⟨"f", [[1]]⟩] 200 300 73 136
        true = .error .emptyCrop)) :=
  ⟨by decide,
   cropIdx_correct [10, 20, 30, 40] [30] [100] 15 35 folder2019 [⟨"f", [[1]]⟩]
     200 300 73 136 true (by decide)⟩

/-- C1 counterexample: two containers whose `lat_flat` arrays differ in
one value by `1e-9` (within `np.allclose` tolerance) merge successfully
and produce an output, refuting exact-equality-or-fatal-error. -/
theorem mergeYears_tiny_mismatch_ok :
    (mergeYears
      [⟨[[some 1]], [20150401], [30], [100]⟩,
       ⟨[[some 2]], [20160401], [30 + 1 / 1000000000], [100]⟩]
      20150331 20241231).isOk = true ∧
    ([30] : List ℚ) ≠ [30 + 1 / 1000000000] := by
  have hlat : allclose [30] [30 + (1000000000 : ℚ)⁻¹] = true := by
    simp [allclose, abs_le]
    norm_num [abs_of_nonneg]
  have hlon : allclose [100] [100] = true := by
    simp [allclose, abs_le]
    norm_num [abs_of_nonneg]
  constructor
  · simp [mergeYears, checkCoords, hlat, hlon, Except.isOk, Except.toBool,
      filterRange]
  · simp only [ne_eq, List.cons.injEq, and_true]
    norm_num

/-- C1 (amended): the merger accepts coordinate arrays that agree with
the first container's within `np.allclose` tolerance; it raises a fatal
error (and writes no output) exactly when some contributing container's
`lat_flat` or `lon_flat` fails that tolerance check. -/
theorem mergeYears_coord_check (f0 : YearFile) (rest : List YearFile)
    (startD endD : ℕ) :
    ((∃ m, mergeYears (f0 :: rest) startD endD = .ok m) ↔
      ∀ f ∈ rest, allclose f0.lat_flat f.lat_flat = true ∧
        allclose f0.lon_flat f.lon_flat = true) ∧
    ((∃ f ∈ rest, allclose f0.lat_flat f.lat_flat = false ∨
        allclose f0.lon_flat f.lon_flat = false) →
      ∃ msg, mergeYears (f0 :: rest) startD endD = .error msg) := by
  have hok : ∀ u, checkCoords f0 rest = .ok u →
      ∃ m, mergeYears (f0 :: rest) startD endD = .ok m := by
    intro u hu
    cases u
    refine ⟨⟨((((f0 :: rest).map (filterRange startD endD)).flatten).map (·.2)),
      ((((f0 :: rest).map (filterRange startD endD)).flatten).map (·.1)),
      f0.lat_flat, f0.lon_flat⟩, ?_⟩
    simp [mergeYears, hu]
  constructor
  · constructor
    · rintro ⟨m, hm⟩
      rcases hc : checkCoords f0 rest with msg | u
      · simp [mergeYears, hc] at hm
      · cases u; exact (checkCoords_ok_iff f0 rest).mp hc
    · intro hall
      exact hok () ((checkCoords_ok_iff f0 rest).mpr hall)
  · rintro ⟨f, hmem, hbad⟩
    rcases checkCoords_error f0 rest (fun hall => by
      rcases hall f hmem with ⟨h1, h2⟩
      rcases hbad with hb | hb <;> simp [h1, h2] at hb) with ⟨msg, hmsg⟩
    exact ⟨msg, by simp [mergeYears, hmsg]⟩

theorem mergeYears_coord_check_witness :
    ((∃ m, mergeYears
        [⟨[[some 1]], [20150401], [30], [100]⟩,
         ⟨[[some 2]], [20160401], [31], [100]⟩] 20150331 20241231 = .ok m) ↔
      ∀ f ∈ [(⟨[[some 2]], [20160401], [31], [100]⟩ : YearFile)],
        allclose [30] f.lat_flat = true ∧ allclose [100] f.lon_flat = true) ∧
    ((∃ f ∈ [(⟨[[some 2]], [20160401], [31], [100]⟩ : YearFile)],
        allclose [30] f.lat_flat = false ∨ allclose [100] f.lon_flat = false) →
      ∃ msg, mergeYears
        [⟨[[some 1]], [20150401], [30], [100]⟩,
         ⟨[[some 2]], [20160401], [31], [100]⟩] 20150331 20241231 = .error msg) :=
  mergeYears_coord_check ⟨[[some 1]], [20150401], [30], [100]⟩
    [⟨[[some 2]], [20160401], [31], [100]⟩] 20150331 20241231

/-- C6: merging Year Containers with identical coordinate arrays keeps
exactly the rows whose date lies in the configured inclusive range; when
the containers arrive with strictly sorted, blockwise-increasing dates
(as per-year files in ascending year order do), the merged `time` array
is strictly ascending — the sorted union of the filtered dates — and
each merged row is by position a (date, data-row) pair of some source
container. -/
theorem merge_sorted_union (f0 : YearFile) (rest : List YearFile)
    (startD endD : ℕ)
    (hlen : ∀ f ∈ f0 :: rest, f.time.length = f.data.length)
    (hcoord : ∀ f ∈ f0 :: rest,
      f.lat_flat = f0.lat_flat ∧ f.lon_flat = f0.lon_flat)
    (hsorted : ∀ f ∈ f0 :: rest, f.time.Pairwise (· < ·))
    (hblocks : (f0 :: rest).Pairwise
      (fun a b => ∀ ta ∈ a.time, ∀ tb ∈ b.time, ta < tb)) :
    ∃ m, mergeYears (f0 :: rest) startD endD = .ok m ∧
      m.lat_flat = f0.lat_flat ∧ m.lon_flat = f0.lon_flat ∧
      m.time.Pairwise (· < ·) ∧
      (∀ t, t ∈ m.time ↔
        ∃ f ∈ f0 :: rest, t ∈ f.time ∧ startD ≤ t ∧ t ≤ endD) ∧
      (∀ k, k < m.time.length →
        ∃ f ∈ f0 :: rest,
          (m.time.getD k 0, m.data.getD k []) ∈ f.time.zip f.data ∧
          startD ≤ m.time.getD k 0 ∧ m.time.getD k 0 ≤ endD) := by
  have hcheck : checkCoords f0 rest = .ok () := by
    rw [checkCoords_ok_iff]
    intro f hf
    obtain ⟨h1, h2⟩ := hcoord f (List.mem_cons_of_mem f0 hf)
    rw [h1, h2]
    exact ⟨allclose_self _, allclose_self _⟩
  have hfst : (fun p : ℕ × List (Option ℚ) => p.1) = Prod.fst := rfl
  refine ⟨⟨(((f0 :: rest).map (filterRange startD endD)).flatten).map (·.2),
    (((f0 :: rest).map (filterRange startD endD)).flatten).map (·.1),
    f0.lat_flat, f0.lon_flat⟩, ?_, rfl, rfl, ?_, ?_, ?_⟩
  · simp only [mergeYears, hcheck]
  · dsimp only
    rw [hfst, List.map_flatten, List.map_map, List.pairwise_flatten]
    constructor
    · intro l hl
      rcases List.mem_map.mp hl with ⟨f, hf, rfl⟩
      exact List.Pairwise.sublist (filterRange_fst_sublist startD endD f)
        (hsorted f hf)
    · rw [List.pairwise_map]
      refine hblocks.imp ?_
      intro a b hab x hx y hy
      exact hab x ((filterRange_fst_sublist startD endD a).subset hx)
        y ((filterRange_fst_sublist startD endD b).subset hy)
  · intro t
    dsimp only
    rw [hfst, List.map_flatten, List.map_map]
    constructor
    · intro ht
      rcases List.mem_flatten.mp ht with ⟨l, hl, htl⟩
      rcases List.mem_map.mp hl with ⟨f, hf, rfl⟩
      rcases (mem_filterRange_fst (hlen f hf) t).mp htl with ⟨h1, h2, h3⟩
      exact ⟨f, hf, h1, h2, h3⟩
    · rintro ⟨f, hf, htf, hs, he⟩
      apply List.mem_flatten.mpr
      refine ⟨(filterRange startD endD f).map Prod.fst,
        List.mem_map.mpr ⟨f, hf, rfl⟩, ?_⟩
      exact (mem_filterRange_fst (hlen f hf) t).mpr ⟨htf, hs, he⟩
  · intro k hk
    dsimp only at hk ⊢
    have hk' : k <
        (((f0 :: rest).map (filterRange startD endD)).flatten).length := by
      rw [List.length_map] at hk
      exact hk
    have hpt : ((((f0 :: rest).map (filterRange startD endD)).flatten).map
        (fun p => p.1)).getD k 0 =
        ((((f0 :: rest).map (filterRange startD endD)).flatten).getD k
          (0, [])).1 := getD_map _ _ hk' _ (0, [])
    have hpd : ((((f0 :: rest).map (filterRange startD endD)).flatten).map
        (fun p => p.2)).getD k [] =
        ((((f0 :: rest).map (filterRange startD endD)).flatten).getD k
          (0, [])).2 := getD_map _ _ hk' _ (0, [])
    have hpm : (((f0 :: rest).map (filterRange startD endD)).flatten).getD k
        (0, []) ∈ ((f0 :: rest).map (filterRange startD endD)).flatten :=
      getD_mem _ _ _ hk'
    rcases List.mem_flatten.mp hpm with ⟨l, hl, hpl⟩
    rcases List.mem_map.mp hl with ⟨f, hf, rfl⟩
    have hpz := List.mem_of_mem_filter hpl
    have hcond := (List.mem_filter.mp hpl).2
    simp only [Bool.and_eq_true, decide_eq_true_eq] at hcond
    refine ⟨f, hf, ?_, ?_, ?_⟩
    · rw [hpt, hpd, Prod.mk.eta]
      exact hpz
    · rw [hpt]
      exact hcond.1
    · rw [hpt]
      exact hcond.2

theorem merge_sorted_union_witness :
    ((∀ f ∈ [(⟨[[some 1]], [20190105], [30], [100]⟩ : YearFile),
        ⟨[[some 2], [some 3]], [20200106, 20200107], [30], [100]⟩],
        f.time.length = f.data.length) ∧
     (∀ f ∈ [(⟨[[some 1]], [20190105], [30], [100]⟩ : YearFile),
        ⟨[[some 2], [some 3]], [20200106, 20200107], [30], [100]⟩],
        f.lat_flat = [30] ∧ f.lon_flat = [100]) ∧
     (∀ f ∈ [(⟨[[some 1]], [20190105], [30], [100]⟩ : YearFile),
        ⟨[[some 2], [some 3]], [20200106, 20200107], [30], [100]⟩],
        f.time.Pairwise (· < ·))) ∧
    (∃ m, mergeYears
        [⟨[[some 1]], [20190105], [30], [100]⟩,
         ⟨[[some 2], [some 3]], [20200106, 20200107], [30], [100]⟩]
        20190101 20241231 = .ok m ∧
      m.lat_flat = [30] ∧ m.lon_flat = [100] ∧
      m.time.Pairwise (· < ·) ∧
      (∀ t, t ∈ m.time ↔
        ∃ f ∈ [(⟨[[some 1]], [20190105], [30], [100]⟩ : YearFile),
          ⟨[[some 2], [some 3]], [20200106, 20200107], [30], [100]⟩],
          t ∈ f.time ∧ 20190101 ≤ t ∧ t ≤ 20241231) ∧
      (∀ k, k < m.time.length →
        ∃ f ∈ [(⟨[[some 1]], [20190105], [30], [100]⟩ : YearFile),
          ⟨[[some 2], [some 3]], [20200106, 20200107], [30], [100]⟩],
          (m.time.getD k 0, m.data.getD k []) ∈ f.time.zip f.data ∧
          20190101 ≤ m.time.getD k 0 ∧ m.time.getD k 0 ≤ 20241231)) :=
  ⟨⟨by decide, by decide, by decide⟩,
   merge_sorted_union ⟨[[some 1]], [20190105], [30], [100]⟩
     [⟨[[some 2], [some 3]], [20200106, 20200107], [30], [100]⟩]
     20190101 20241231 (by decide) (by decide) (by decide) (by decide)⟩

/-- C8 counterexample: an input `.h5` file whose name lacks the
8-digit-`T`-6-digit timestamp makes the aggregation stage raise a
`ValueError` naming the file, rather than being skipped silently. -/
theorem aggregate_badname_raises :
    aggregate_one_year folder2019 [30] [100] [⟨junkName, [[1]]⟩]
      18 54 73 136 true = .error (.badFilename junkName) := rfl

/-- C8 (amended): files whose names do not match the naming convention
are skipped silently only by the check-and-move stage's `gather_files`
(removing them from the scan changes nothing); in the aggregation stage
a `.h5`/`.he5` file whose name the timestamp regex cannot parse makes
the whole year's aggregation raise a `ValueError` naming such a file. -/
theorem malformed_name_handling :
    (∀ year names, gather_files year names =
      gather_files year
        (names.filter (fun n => globMatch n && (gphSearch n.toList).isSome))) ∧
    (∀ (folder : String) (latVec lonVec : List ℚ) (files : List Granule)
        (latMin latMax lonMin lonMax : ℚ) (strict : Bool) (g : Granule),
      files ≠ [] →
      (cropIdx latVec latMin latMax).isEmpty = false →
      (cropIdx lonVec lonMin lonMax).isEmpty = false →
      g ∈ files → timeSearch g.name.toList = none →
      ∃ g', g' ∈ files ∧ timeSearch g'.name.toList = none ∧
        aggregate_one_year folder latVec lonVec files latMin latMax lonMin
          lonMax strict = .error (.badFilename g'.name)) := by
  constructor
  · intro year names
    induction names with
    | nil => rfl
    | cons n ns ih =>
      by_cases hglob : globMatch n = true
      · rcases hs : gphSearch n.toList with _ | du
        · have hs2 : gphSearch n.data = none := hs
          have hig : gatherOne year n = .ignored := by
            simp [gatherOne, hglob, hs, hs2]
          have hkeep : (globMatch n && (gphSearch n.toList).isSome) = false := by
            simp [hs, hs2]
          rw [gather_files_cons, hig, List.filter_cons, hkeep]
          exact ih
        · have hs2 : gphSearch n.data = some du := hs
          have hkeep : (globMatch n && (gphSearch n.toList).isSome) = true := by
            simp [hglob, hs, hs2]
          rw [gather_files_cons, List.filter_cons, hkeep, if_pos rfl,
            gather_files_cons, ← ih]
      · have hig : gatherOne year n = .ignored := by
          simp [gatherOne, hglob]
        have hkeep : (globMatch n && (gphSearch n.toList).isSome) = false := by
          simp [hglob]
        rw [gather_files_cons, hig, List.filter_cons, hkeep]
        exact ih
  · intro folder latVec lonVec files latMin latMax lonMin lonMax strict g
      hne hlat hlon hmem hnone
    rcases parseFiles_first_bad files ⟨g, hmem, hnone⟩ with ⟨g', hmem', hnone', hpf⟩
    have hfe : files.isEmpty = false := by
      cases files with
      | nil => exact absurd rfl hne
      | cons a l => rfl
    exact ⟨g', hmem', hnone',
      by simp [aggregate_one_year, hfe, hlat, hlon, hpf]⟩

theorem dailyRaster_mean_witness :
    ((∀ u ∈ UTC_CODES,
        lookupGranule sampleTagged 20190101 u = some (sampleGranule u)) ∧
     (∀ u ∈ UTC_CODES, ∀ a ∈ ([0] : List ℕ),
        a < (sampleGranule u).grid.length ∧
        ∀ b ∈ ([0, 1] : List ℕ),
          b < ((sampleGranule u).grid.getD a []).length)) ∧
    ((dailyRaster sampleTagged 20190101 [0] [0, 1]).length =
      ([0] : List ℕ).length ∧
     (∀ row ∈ dailyRaster sampleTagged 20190101 [0] [0, 1],
        row.length = ([0, 1] : List ℕ).length) ∧
     (∀ i j, i < ([0] : List ℕ).length → j < ([0, 1] : List ℕ).length →
        ((dailyRaster sampleTagged 20190101 [0] [0, 1]).getD i []).getD j
            none =
          (let readings := UTC_CODES.map (fun u =>
            ((sampleGranule u).grid.getD (([0] : List ℕ).getD i 0) []).getD
              (([0, 1] : List ℕ).getD j 0) 0);
          let valid := readings.filter (fun v => decide (-9000 ≤ v));
          if valid.isEmpty then none
          else some (valid.sum / valid.length)))) :=
  ⟨⟨by decide, by decide⟩,
   dailyRaster_mean sampleTagged 20190101 [0] [0, 1] sampleGranule
     (by decide) (by decide)⟩

/-- C3: in strict mode, a day missing any of the 8 canonical time-codes
makes the whole year's aggregation raise an error carrying the (first
such) day and its exact missing codes, and no container is produced; in
non-strict mode the same run succeeds, the incomplete day is warned
about and contributes no raster, while every complete day still
contributes. -/
theorem strict_missing_day (folder : String) (latVec lonVec : List ℚ)
    (files : List Granule) (latMin latMax lonMin lonMax : ℚ)
    (tagged : List (ℕ × String × Granule)) (day : ℕ)
    (hfe : files.isEmpty = false)
    (hlat : (cropIdx latVec latMin latMax).isEmpty = false)
    (hlon : (cropIdx lonVec lonMin lonMax).isEmpty = false)
    (hp : parseFiles files = .ok tagged)
    (hmem : day ∈ sortedDays tagged)
    (hinc : (missingCodesOf tagged day).isEmpty = false) :
    (∃ d, d ∈ sortedDays tagged ∧ missingCodesOf tagged d ≠ [] ∧
      aggregate_one_year folder latVec lonVec files latMin latMax lonMin
        lonMax true = .error (.missingCodes folder d
          (missingCodesOf tagged d))) ∧
    (∃ ws out,
      aggregate_one_year folder latVec lonVec files latMin latMax lonMin
        lonMax false = .ok (ws, out) ∧
      (day, missingCodesOf tagged day) ∈ ws ∧
      (∀ c, out = some c → day ∉ c.time) ∧
      (∀ d ∈ sortedDays tagged, (missingCodesOf tagged d).isEmpty = true →
        ∃ c, out = some c ∧ d ∈ c.time)) := by
  constructor
  · rcases processDays_strict_first_error folder tagged
        (cropIdx latVec latMin latMax) (cropIdx lonVec lonMin lonMax)
        ⟨day, hmem, hinc⟩ with ⟨d, hdmem, hdinc, heq⟩
    refine ⟨d, hdmem, ?_, ?_⟩
    · intro hnil
      rw [hnil] at hdinc
      cases hdinc
    · rw [aggregate_main_eq hfe hlat hlon hp, heq]
  · have hpd := processDays_nonstrict_ok folder tagged
      (cropIdx latVec latMin latMax) (cropIdx lonVec lonMin lonMax)
      (sortedDays tagged)
    set warns := ((sortedDays tagged).filter
      (fun d => !(missingCodesOf tagged d).isEmpty)).map
      (fun d => (d, missingCodesOf tagged d)) with hwarns
    set qd := (sortedDays tagged).filter
      (fun d => (missingCodesOf tagged d).isEmpty) with hqd
    set rs := qd.map (fun d => (d, dailyRaster tagged d
      (cropIdx latVec latMin latMax) (cropIdx lonVec lonMin lonMax)))
      with hrs
    have hagg : aggregate_one_year folder latVec lonVec files latMin latMax
        lonMin lonMax false =
        (if rs.isEmpty then .ok (warns, none)
         else .ok (warns, some (buildContainer latVec lonVec
           (cropIdx latVec latMin latMax) (cropIdx lonVec lonMin lonMax)
           rs))) := by
      rw [aggregate_main_eq hfe hlat hlon hp, hpd]
    have hwmem : (day, missingCodesOf tagged day) ∈ warns := by
      rw [hwarns]
      exact List.mem_map.mpr ⟨day,
        List.mem_filter.mpr ⟨hmem, by simp [hinc]⟩, rfl⟩
    have htime : (buildContainer latVec lonVec
        (cropIdx latVec latMin latMax) (cropIdx lonVec lonMin lonMax)
        rs).time = qd := by
      show rs.map (·.1) = qd
      rw [hrs, map_fst_pairing]
    by_cases hre : rs.isEmpty = true
    · refine ⟨warns, none, by rw [hagg, if_pos hre], hwmem, ?_, ?_⟩
      · intro c hc
        cases hc
      · intro d hdmem hdcomp
        exfalso
        have : d ∈ qd := List.mem_filter.mpr ⟨hdmem, hdcomp⟩
        rw [List.isEmpty_iff] at hre
        rw [hrs] at hre
        rcases List.map_eq_nil_iff.mp hre with hqnil
        rw [hqnil] at this
        cases this
    · refine ⟨warns, some (buildContainer latVec lonVec
        (cropIdx latVec latMin latMax) (cropIdx lonVec lonMin lonMax) rs),
        by rw [hagg, if_neg hre], hwmem, ?_, ?_⟩
      · intro c hc
        injection hc with hc
        rw [← hc, htime]
        intro hdayin
        have := (List.mem_filter.mp hdayin).2
        rw [hinc] at this
        cases this
      · intro d hdmem hdcomp
        refine ⟨_, rfl, ?_⟩
        rw [htime]
        exact List.mem_filter.mpr ⟨hdmem, hdcomp⟩

theorem strict_missing_day_witness :
    (([loneGranule] : List Granule).isEmpty = false ∧
     (cropIdx [30] 18 54).isEmpty = false ∧
     (cropIdx [100] 73 136).isEmpty = false ∧
     parseFiles [loneGranule] = .ok loneTagged ∧
     20190101 ∈ sortedDays loneTagged ∧
     (missingCodesOf loneTagged 20190101).isEmpty = false) ∧
    ((∃ d, d ∈ sortedDays loneTagged ∧ missingCodesOf loneTagged d ≠ [] ∧
      aggregate_one_year folder2019 [30] [100] [loneGranule] 18 54 73 136 true =
        .error (.missingCodes folder2019 d (missingCodesOf loneTagged d))) ∧
     (∃ ws out,
      aggregate_one_year folder2019 [30] [100] [loneGranule] 18 54 73 136 false =
        .ok (ws, out) ∧
      (20190101, missingCodesOf loneTagged 20190101) ∈ ws ∧
      (∀ c, out = some c → 20190101 ∉ c.time) ∧
      (∀ d ∈ sortedDays loneTagged,
        (missingCodesOf loneTagged d).isEmpty = true →
        ∃ c, out = some c ∧ d ∈ c.time))) :=
  ⟨⟨by decide, by decide, by decide, rfl, by decide, by decide⟩,
   strict_missing_day folder2019 [30] [100] [loneGranule] 18 54 73 136
     loneTagged 20190101 (by decide) (by decide) (by decide) rfl
     (by decide) (by decide)⟩

lemma adjust_2015_date_mk (a b c d : Char) :
    adjust_2015_date (String.mk ['2', '0', '1', '5', a, b, c, d]) =
      (if natOfDigits [a, b] < 3 ∨
          (natOfDigits [a, b] = 3 ∧ natOfDigits [c, d] < 31)
       then .error (String.mk ['2', '0', '1', '5', a, b, c, d])
       else .ok ("2015" ++ pad2 (natOfDigits [a, b]) ++
         pad2 (natOfDigits [c, d]))) := by
  unfold adjust_2015_date
  rw [if_neg (by simp)]
  rfl

/-- C10: on every 8-digit 2015 date string, `adjust_2015_date` returns
its input unchanged when month/day are on or after March 31 (the
day-of-year offset it computes is discarded), and raises a `ValueError`
for earlier dates; `gather_files` then skips such a file, adding it to
the printed-skip log while keeping nothing from it. -/
theorem adjust_2015_behavior :
    (∀ (s : String) (a b c d : Char),
      s.toList = ['2', '0', '1', '5', a, b, c, d] →
      a.isDigit = true → b.isDigit = true →
      c.isDigit = true → d.isDigit = true →
      ((¬ (natOfDigits [a, b] < 3 ∨
          (natOfDigits [a, b] = 3 ∧ natOfDigits [c, d] < 31))) →
        adjust_2015_date s = .ok s) ∧
      ((natOfDigits [a, b] < 3 ∨
          (natOfDigits [a, b] = 3 ∧ natOfDigits [c, d] < 31)) →
        adjust_2015_date s = .error s)) ∧
    (∀ (n : String) (ns : List String) (day utc r : String),
      globMatch n = true →
      gphSearch n.toList = some (day, utc) →
      "2015".toList.isPrefixOf day.toList = true →
      adjust_2015_date day = .error r →
      gather_files yr2015 (n :: ns) =
        ((gather_files yr2015 ns).1, n :: (gather_files yr2015 ns).2)) := by
  constructor
  · intro s a b c d hs ha hb hc hd
    have hmk : s = String.mk ['2', '0', '1', '5', a, b, c, d] := by
      have h0 : String.mk s.toList = s := rfl
      rw [← h0, hs]
    subst hmk
    rw [adjust_2015_date_mk]
    constructor
    · intro hnot
      rw [if_neg hnot, pad2_digits ha hb, pad2_digits hc hd]
      rfl
    · intro hyes
      rw [if_pos hyes]
  · intro n ns day utc r hg hsrch hpre hadj
    have hsrch2 : gphSearch n.data = some (day, utc) := hsrch
    have hone : gatherOne yr2015 n = .loggedSkip n r := by
      unfold gatherOne
      rw [if_neg (by simp [hg])]
      rw [hsrch]
      dsimp only
      rw [if_neg (by simpa using hpre),
        if_pos (show yr2015 = "2015" from rfl), hadj]
    rw [gather_files_cons, hone]

theorem adjust_2015_behavior_witness :
    ((day0401.toList =
        ['2', '0', '1', '5', '0', '4', '0', '1'] ∧
      ¬ (natOfDigits ['0', '4'] < 3 ∨
        (natOfDigits ['0', '4'] = 3 ∧ natOfDigits ['0', '1'] < 31)) ∧
      globMatch skipName = true ∧
      gphSearch skipName.toList = some (day0210, utc013) ∧
      yr2015.toList.isPrefixOf day0210.toList = true ∧
      adjust_2015_date day0210 = .error day0210) ∧
    (adjust_2015_date day0401 = .ok day0401 ∧
     gather_files yr2015 [skipName] =
       ((gather_files yr2015 []).1,
        skipName :: (gather_files yr2015 []).2))) :=
  ⟨⟨rfl, by decide, by decide, rfl, by decide, rfl⟩,
   ⟨(adjust_2015_behavior.1 day0401 '0' '4' '0' '1' rfl rfl rfl rfl
      rfl).1 (by decide),
    adjust_2015_behavior.2 skipName [] day0210 utc013 day0210
      (by decide) rfl (by decide) rfl⟩⟩

/-- C9: in every Year Container produced, the `time` dataset is strictly
ascending with no duplicates, contains exactly the qualifying
(all-8-codes-present) days, and the day-d slice of `sm_rootzone` is the
Daily Raster of the d-th smallest qualifying date. -/
theorem time_sorted_qualifying
    {folder : String} {latVec lonVec : List ℚ} {files : List Granule}
    {latMin latMax lonMin lonMax : ℚ} {strict : Bool}
    {ws : List (ℕ × List String)} {c : YearContainer}
    (h : aggregate_one_year folder latVec lonVec files latMin latMax lonMin
      lonMax strict = .ok (ws, some c)) :
    c.time.Pairwise (· < ·) ∧
    ∃ tagged, parseFiles files = .ok tagged ∧
      (∀ t, t ∈ c.time ↔
        t ∈ dayKeys tagged ∧ (missingCodesOf tagged t).isEmpty = true) ∧
      (∀ d, d < c.time.length →
        c.sm_rootzone.getD d [] = dailyRaster tagged (c.time.getD d 0)
          (cropIdx latVec latMin latMax) (cropIdx lonVec lonMin lonMax)) := by
  obtain ⟨tagged, rasters, hp, hpd, hne, hc⟩ := aggregate_ok_some h
  have hrs := processDays_ok_rasters hpd
  have htime : c.time = (sortedDays tagged).filter
      (fun d => (missingCodesOf tagged d).isEmpty) := by
    rw [hc]
    show rasters.map (·.1) = _
    rw [hrs, map_fst_pairing]
  have hsm : c.sm_rootzone = ((sortedDays tagged).filter
      (fun d => (missingCodesOf tagged d).isEmpty)).map
      (fun d => dailyRaster tagged d (cropIdx latVec latMin latMax)
        (cropIdx lonVec lonMin lonMax)) := by
    rw [hc]
    show rasters.map (·.2) = _
    rw [hrs, map_snd_pairing]
  refine ⟨?_, tagged, hp, ?_, ?_⟩
  · rw [htime]
    exact (sortedDays_pairwise tagged).filter _
  · intro t
    rw [htime, List.mem_filter, mem_sortedDays]
  · intro d hd
    rw [htime] at hd
    have hd' : d < ((sortedDays tagged).filter
        (fun d => (missingCodesOf tagged d).isEmpty)).length := by
      simpa using hd
    rw [hsm, htime]
    exact getD_map _ _ hd' _ 0

theorem time_sorted_qualifying_witness :
    aggregate_one_year folder2019 [30, 60] [100, 140] sampleFiles
      18 54 73 136 true = .ok ([], some sampleContainer) ∧
    (sampleContainer.time.Pairwise (· < ·) ∧
     ∃ tagged, parseFiles sampleFiles = .ok tagged ∧
      (∀ t, t ∈ sampleContainer.time ↔
        t ∈ dayKeys tagged ∧ (missingCodesOf tagged t).isEmpty = true) ∧
      (∀ d, d < sampleContainer.time.length →
        sampleContainer.sm_rootzone.getD d [] =
          dailyRaster tagged (sampleContainer.time.getD d 0)
            (cropIdx [30, 60] 18 54) (cropIdx [100, 140] 73 136))) :=
  ⟨rfl, time_sorted_qualifying
    (rfl : aggregate_one_year folder2019 [30, 60] [100, 140] sampleFiles
      18 54 73 136 true = .ok ([], some sampleContainer))⟩

/-- C4: in every Year Container produced, `lat_flat[i]` is the cropped
latitude at row  i / W  and `lon_flat[i]` is the cropped longitude at
column  i % W  (W the crop width), so flat point i aligns with raster
cell (i / W, i % W). -/
theorem flat_coordinates_alignment
    {folder : String} {latVec lonVec : List ℚ} {files : List Granule}
    {latMin latMax lonMin lonMax : ℚ} {strict : Bool}
    {ws : List (ℕ × List String)} {c : YearContainer}
    (h : aggregate_one_year folder latVec lonVec files latMin latMax lonMin
      lonMax strict = .ok (ws, some c)) :
    c.lat_flat.length = c.latitude.length * c.longitude.length ∧
    c.lon_flat.length = c.latitude.length * c.longitude.length ∧
    ∀ i, i < c.latitude.length * c.longitude.length →
      c.lat_flat.getD i 0 = c.latitude.getD (i / c.longitude.length) 0 ∧
      c.lon_flat.getD i 0 = c.longitude.getD (i % c.longitude.length) 0 := by
  obtain ⟨tagged, rasters, hp, hpd, hne, hc⟩ := aggregate_ok_some h
  subst hc
  simp only [buildContainer]
  exact ⟨mkLatFlat_length _ _, mkLonFlat_length _ _,
    fun i hi => ⟨mkLatFlat_getD _ _ hi, mkLonFlat_getD _ _ hi⟩⟩

theorem flat_coordinates_alignment_witness :
    aggregate_one_year folder2019 [30, 60] [100, 140] sampleFiles
      18 54 73 136 false = .ok ([], some sampleContainer) ∧
    (sampleContainer.lat_flat.length =
      sampleContainer.latitude.length * sampleContainer.longitude.length ∧
     sampleContainer.lon_flat.length =
      sampleContainer.latitude.length * sampleContainer.longitude.length ∧
     ∀ i, i < sampleContainer.latitude.length *
        sampleContainer.longitude.length →
      sampleContainer.lat_flat.getD i 0 =
        sampleContainer.latitude.getD
          (i / sampleContainer.longitude.length) 0 ∧
      sampleContainer.lon_flat.getD i 0 =
        sampleContainer.longitude.getD
          (i % sampleContainer.longitude.length) 0) :=
  ⟨rfl, flat_coordinates_alignment
    (rfl : aggregate_one_year folder2019 [30, 60] [100, 140] sampleFiles
      18 54 73 136 false = .ok ([], some sampleContainer))⟩

/-- C5: in every Year Container produced, each `data` row is the
row-major flattening of the corresponding `sm_rootzone` slice, and
reshaping it back to (H, W) recovers that slice exactly. -/
theorem data_rows_roundtrip
    {folder : String} {latVec lonVec : List ℚ} {files : List Granule}
    {latMin latMax lonMin lonMax : ℚ} {strict : Bool}
    {ws : List (ℕ × List String)} {c : YearContainer}
    (h : aggregate_one_year folder latVec lonVec files latMin latMax lonMin
      lonMax strict = .ok (ws, some c)) :
    ∀ d, d < c.data.length →
      c.data.getD d [] = (c.sm_rootzone.getD d []).flatten ∧
      reshapeRows c.latitude.length c.longitude.length (c.data.getD d []) =
        c.sm_rootzone.getD d [] := by
  obtain ⟨tagged, rasters, hp, hpd, hne, hc⟩ := aggregate_ok_some h
  have hrs := processDays_ok_rasters hpd
  intro d hd
  have hdata : c.data = c.sm_rootzone.map List.flatten := by
    rw [hc]
    rfl
  have hd' : d < c.sm_rootzone.length := by
    rw [hdata, List.length_map] at hd
    exact hd
  have h1 : c.data.getD d [] = (c.sm_rootzone.getD d []).flatten := by
    rw [hdata, getD_map _ _ hd' _ []]
  refine ⟨h1, ?_⟩
  have hsm : c.sm_rootzone = rasters.map (·.2) := by
    rw [hc]
    rfl
  have hshape : (c.sm_rootzone.getD d []).length =
      (cropIdx latVec latMin latMax).length ∧
      ∀ r ∈ c.sm_rootzone.getD d [],
        r.length = (cropIdx lonVec lonMin lonMax).length := by
    rw [hsm, hrs, map_snd_pairing] at hd' ⊢
    have hmem := getD_mem _ d ([] : List (List (Option ℚ))) hd'
    rcases List.mem_map.mp hmem with ⟨day, _, heq⟩
    rw [← heq]
    exact ⟨(nanmeanStack_shape _ _ _).1, (nanmeanStack_shape _ _ _).2⟩
  have hlat : c.latitude.length = (cropIdx latVec latMin latMax).length := by
    rw [hc]
    simp [buildContainer, selectIdx]
  have hlon : c.longitude.length = (cropIdx lonVec lonMin lonMax).length := by
    rw [hc]
    simp [buildContainer, selectIdx]
  rw [h1, hlat, hlon, ← hshape.1]
  exact reshapeRows_flatten hshape.2

theorem data_rows_roundtrip_witness :
    aggregate_one_year yr2015 [30, 60] [100, 140] sampleFiles
      18 54 73 136 true = .ok ([], some sampleContainer) ∧
    (∀ d, d < sampleContainer.data.length →
      sampleContainer.data.getD d [] =
        (sampleContainer.sm_rootzone.getD d []).flatten ∧
      reshapeRows sampleContainer.latitude.length
        sampleContainer.longitude.length (sampleContainer.data.getD d []) =
        sampleContainer.sm_rootzone.getD d []) :=
  ⟨rfl, data_rows_roundtrip
    (rfl : aggregate_one_year yr2015 [30, 60] [100, 140] sampleFiles
      18 54 73 136 true = .ok ([], some sampleContainer))⟩

theorem malformed_name_handling_witness :
    gather_files folder2019
        ["junk.txt", "SMAP_L4_SM_gph_20190101T013000_a.h5"] =
      gather_files folder2019
        (["junk.txt", "SMAP_L4_SM_gph_20190101T013000_a.h5"].filter
          (fun n => globMatch n && (gphSearch n.toList).isSome)) ∧
    ∃ g', g' ∈ [(⟨junk2Name, [[1]]⟩ : Granule)] ∧
      timeSearch g'.name.toList = none ∧
      aggregate_one_year folder2019 [30] [100] [⟨junk2Name, [[1]]⟩]
        18 54 73 136 false = .error (.badFilename g'.name) :=
  ⟨(malformed_name_handling.1 folder2019
      ["junk.txt", "SMAP_L4_SM_gph_20190101T013000_a.h5"]),
   (malformed_name_handling.2 folder2019 [30] [100] [⟨junk2Name, [[1]]⟩]
      18 54 73 136 false ⟨junk2Name, [[1]]⟩ (by decide) (by decide)
      (by decide) (by decide) (by decide))⟩

end SMAPL4
